import Mathlib

/-!
Shallow embedding of the pledge lifecycle and reward-tier allocation core of
the crowdfunding back end (Django app `crowdfunding.fundraisers`), with
theorems settling the specification claims about it.

Conventions of the embedding:
* Database rows are Lean structures; primary and foreign keys are `Nat`.
* `DecimalField` values (exact base-ten decimals) are represented by `Rat`,
  which contains them and has the same exact `+` and `≤` the database uses.
* Python `None` is `Option.none`; an operation that can raise returns
  `Except String`, the payload being the error detail text.
* A Django queryset over a table is a `List` of rows; `filter`, `aggregate`
  and `order_by(...).first()` are translated to `List.filter`, folds and an
  insertion sort by the same ordering keys.
* `transaction.atomic` / request semantics: when an operation raises, the
  persisted state is the state from before the operation (rollback); the
  observable post-state of an endpoint is therefore taken from the `.ok`
  branch and is the unchanged input state on `.error`.
-/

namespace Crowdfunding

deriving instance DecidableEq for Except

/-- A row of the `Pledge` table (models.py, class Pledge). Presentation-only
columns (`comment`, `anonymous`, the timestamps) are omitted; every column the
claims read or write is kept. `need` and `reward_tier` are nullable foreign
keys. -/
structure PledgeRec where
  id : Nat
  fundraiser : Nat
  supporter : Nat
  status : String
  need : Option Nat
  reward_tier : Option Nat
  deriving DecidableEq

/-- A row of the `MoneyPledge` table (models.py, class MoneyPledge): a
one-to-one detail of a `Pledge` carrying the pledged `amount`. -/
structure MoneyPledgeRec where
  id : Nat
  pledge : Nat
  amount : Rat
  deriving DecidableEq

/-- A row of the `RewardTier` table (models.py, class RewardTier). -/
structure RewardTier where
  id : Nat
  fundraiser : Nat
  reward_type : String
  name : String
  description : String
  minimum_contribution_value : Option Rat
  image_url : String
  sort_order : Int
  max_backers : Option Nat
  deriving DecidableEq

/-- The slice of the entity store the money reward-tier recalculation reads
and writes: the `Pledge`, `MoneyPledge` and `RewardTier` tables. -/
structure Store where
  pledges : List PledgeRec
  moneyPledges : List MoneyPledgeRec
  tiers : List RewardTier
  deriving DecidableEq

/-- utils.py `ensure_allowed_transition(current, target, actor_role)`:
the pure pledge status transition check. Returns `.ok ()` where the Python
function returns normally and `.error detail` where it raises
`ValidationError` with that detail text. -/
def ensure_allowed_transition (current target actor_role : String) :
    Except String Unit :=
  if actor_role = "supporter" then
    if target = "cancelled" then
      if current ≠ "pending" then
        .error ("Supporters can only cancel pending pledges.")
      else .ok ()
    else .error ("Supporters cannot approve/decline pledges.")
  else if actor_role = "owner" then
    if target = "approved" then
      if current ≠ "pending" then
        .error ("Only pending pledges can be approved.")
      else .ok ()
    else if target = "declined" then
      if current ≠ "pending" then
        .error ("Only pending pledges can be declined.")
      else .ok ()
    else if target = "cancelled" then
      if ¬ (current = "pending" ∨ current = "approved") then
        .error ("Only pending or approved pledges can be cancelled.")
      else .ok ()
    else .error ("Unknown target status.")
  else .error ("Invalid actor role.")

/-- The caller pattern shared by the `PledgeCancel`/`PledgeApprove`/
`PledgeDecline` views (views.py lines 255-308): run
`ensure_allowed_transition` on the pledge's current status, and only when it
passes assign and save the new status. -/
def transitionPledge (p : PledgeRec) (target actor_role : String) :
    Except String PledgeRec :=
  match ensure_allowed_transition p.status target actor_role with
  | .error e => .error e
  | .ok _ => .ok { p with status := target }

/-- Persisted pledge after a transition request: the updated row on success,
the untouched row when the check raised (the view raises before any write). -/
def transitionPledgeState (p : PledgeRec) (target actor_role : String) :
    PledgeRec :=
  match transitionPledge p target actor_role with
  | .ok p2 => p2
  | .error _ => p

/-- Does the pledge with this id have a `MoneyPledge` detail row?
(the `money_detail__isnull=False` join condition in utils.py line 45). -/
def hasMoneyDetail (st : Store) (pledgeId : Nat) : Bool :=
  st.moneyPledges.any (fun mp => mp.pledge = pledgeId)

/-- utils.py lines 24-29: total money this supporter has pledged to this
fundraiser — `MoneyPledge.objects.filter(pledge__supporter=supporter,
pledge__fundraiser=fundraiser).aggregate(Coalesce(Sum("amount"), 0))`.
The join runs through the `pledge` foreign key; no condition on the parent
pledge's status appears. -/
def totalMoney (st : Store) (supporter fundraiser : Nat) : Rat :=
  (st.moneyPledges.filter (fun mp =>
      st.pledges.any (fun p =>
        p.id = mp.pledge && p.supporter = supporter &&
          p.fundraiser = fundraiser))).foldl
    (fun acc mp => acc + mp.amount) 0

/-- utils.py lines 32-37: the tier filter of the recalculation —
`fundraiser=fundraiser, reward_type="money",
minimum_contribution_value__isnull=False,
minimum_contribution_value__lte=total_money`. -/
def qualifies (fundraiser : Nat) (total : Rat) (t : RewardTier) : Bool :=
  decide (t.fundraiser = fundraiser) && decide (t.reward_type = "money") &&
    (match t.minimum_contribution_value with
     | none => false
     | some v => decide (v ≤ total))

/-- The row ordering of utils.py line 38,
`order_by("-minimum_contribution_value", "-id")`: `a` sorts no later than `b`
iff `a`'s minimum value is greater, or equal with `a.id ≥ b.id`. On the rows
this is applied to, `minimum_contribution_value` is non-null (the filter keeps
only non-null rows), so the `getD 0` default is never the deciding value. -/
def tierBefore (a b : RewardTier) : Bool :=
  decide (b.minimum_contribution_value.getD 0 <
      a.minimum_contribution_value.getD 0) ||
    (decide (a.minimum_contribution_value.getD 0 =
        b.minimum_contribution_value.getD 0) && decide (b.id ≤ a.id))

/-- Insert a row into a list sorted by `tierBefore`. -/
def insertTier (t : RewardTier) : List RewardTier → List RewardTier
  | [] => [t]
  | u :: us => if tierBefore t u then t :: u :: us else u :: insertTier t us

/-- Sort tier rows by `tierBefore` (the `order_by` of utils.py line 38). -/
def sortTiers : List RewardTier → List RewardTier
  | [] => []
  | t :: ts => insertTier t (sortTiers ts)

/-- utils.py lines 31-40: the qualifying-tier query —
filter, `order_by("-minimum_contribution_value", "-id")`, `.first()`. -/
def selectMoneyTier (tiers : List RewardTier) (fundraiser : Nat)
    (total : Rat) : Option RewardTier :=
  (sortTiers (tiers.filter (qualifies fundraiser total))).head?

/-- The filter condition of the bulk update in utils.py lines 42-46: the
pledge belongs to this supporter and fundraiser and has a `MoneyPledge`
detail (`supporter=..., fundraiser=..., money_detail__isnull=False`). -/
def pledgeMatchesMoney (st : Store) (supporter fundraiser : Nat)
    (p : PledgeRec) : Bool :=
  p.supporter = supporter && p.fundraiser = fundraiser &&
    hasMoneyDetail st p.id

/-- The tier the recalculation of utils.py selects for a supporter and
fundraiser in a given store state (lines 24-40: the aggregate total fed to
the qualifying-tier query). -/
def selectedTier (st : Store) (supporter fundraiser : Nat) :
    Option RewardTier :=
  selectMoneyTier st.tiers fundraiser (totalMoney st supporter fundraiser)

/-- utils.py lines 16-46, `update_reward_tiers_for_supporter_and_fundraiser`:
recompute the supporter's money total for the fundraiser, select the highest
qualifying money tier, and bulk-update `reward_tier` on every pledge of that
supporter and fundraiser that has a money detail
(`Pledge.objects.filter(supporter=..., fundraiser=...,
money_detail__isnull=False).update(reward_tier=reward_tier)`). -/
def update_reward_tiers_for_supporter_and_fundraiser (st : Store)
    (supporter fundraiser : Nat) : Store :=
  let reward_tier := selectedTier st supporter fundraiser
  { st with
    pledges := st.pledges.map (fun p =>
      if pledgeMatchesMoney st supporter fundraiser p then
        { p with reward_tier := reward_tier.map (fun t => t.id) }
      else p) }

/-- The `TimeNeed` detail row of a `Need` (models.py, class TimeNeed),
restricted to the columns the tier-assignment paths read: the optional
configured `reward_tier`. -/
structure TimeNeedRec where
  reward_tier : Option Nat
  deriving DecidableEq

/-- The `ItemNeed` detail row of a `Need` (models.py, class ItemNeed),
restricted to the columns the tier-assignment paths read. -/
structure ItemNeedRec where
  mode : String
  donation_reward_tier : Option Nat
  loan_reward_tier : Option Nat
  deriving DecidableEq

/-- A `Need` row (models.py, class Need) together with its optional
one-to-one detail rows, as the serializer paths reach them through the
`time_detail` / `item_detail` related names. -/
structure NeedRec where
  id : Nat
  fundraiser : Nat
  need_type : String
  time_detail : Option TimeNeedRec
  item_detail : Option ItemNeedRec
  deriving DecidableEq

/-- serializers.py lines 238-259, `TimePledgeSerializer._apply_reward_tier`:
walk pledge → need → `time_detail` → `reward_tier`; at any missing link
return with no write; when a tier is found, assign it to the pledge and save
(`pledge.reward_tier = reward; pledge.save(...)`). The pledge's `need` link
is passed as the resolved row (`none` when the pledge has no need). -/
def applyTimeRewardTier (p : PledgeRec) (need : Option NeedRec) : PledgeRec :=
  match need with
  | none => p
  | some n =>
    match n.time_detail with
    | none => p
    | some tn =>
      match tn.reward_tier with
      | none => p
      | some r => { p with reward_tier := some r }

/-- The tier `TimePledgeSerializer._apply_reward_tier` resolves from the
pledge's need: the need's `time_detail.reward_tier`, when every link exists. -/
def resolvedTimeTier (need : Option NeedRec) : Option Nat :=
  (need.bind (fun n => n.time_detail)).bind (fun tn => tn.reward_tier)

/-- serializers.py lines 312-341, `ItemPledgeSerializer._update_rewards`:
walk pledge → need → `item_detail`; pick the mode as the pledge's own mode
with Python `or` fallback to the item need's mode (an empty string is falsy);
select the need's donation or loan tier by that mode; when a tier resolves,
assign it to the pledge and save. -/
def itemUpdateRewards (p : PledgeRec) (need : Option NeedRec)
    (pledgeMode : String) : PledgeRec :=
  match need with
  | none => p
  | some n =>
    match n.item_detail with
    | none => p
    | some inr =>
      let mode := if pledgeMode = "" then inr.mode else pledgeMode
      let tier : Option Nat :=
        if mode = "donation" then inr.donation_reward_tier
        else if mode = "loan" then inr.loan_reward_tier
        else none
      match tier with
      | none => p
      | some t => { p with reward_tier := some t }

/-- The tier `ItemPledgeSerializer._update_rewards` resolves for a pledge. -/
def resolvedItemTierSer (need : Option NeedRec) (pledgeMode : String) :
    Option Nat :=
  match need with
  | none => none
  | some n =>
    match n.item_detail with
    | none => none
    | some inr =>
      let mode := if pledgeMode = "" then inr.mode else pledgeMode
      if mode = "donation" then inr.donation_reward_tier
      else if mode = "loan" then inr.loan_reward_tier
      else none

/-- views.py lines 835-855, the tier sync inside `ItemPledgeList.post`
(mirrored at lines 898-913 in `ItemPledgeDetail.put`): only when the need
exists and `need.need_type == "item"`, select the item need's donation or
loan tier by the item pledge's own mode (no fallback here), and write it on
the pledge only when it is non-null. -/
def itemPledgeListAssign (p : PledgeRec) (need : Option NeedRec)
    (pledgeMode : String) : PledgeRec :=
  match need with
  | none => p
  | some n =>
    if n.need_type = "item" then
      match n.item_detail with
      | none => p
      | some inr =>
        let tier : Option Nat :=
          if pledgeMode = "donation" then inr.donation_reward_tier
          else if pledgeMode = "loan" then inr.loan_reward_tier
          else none
        match tier with
        | none => p
        | some t => { p with reward_tier := some t }
    else p

/-- The tier the `ItemPledgeList.post` sync resolves for a pledge. -/
def resolvedItemTierView (need : Option NeedRec) (pledgeMode : String) :
    Option Nat :=
  match need with
  | none => none
  | some n =>
    if n.need_type = "item" then
      match n.item_detail with
      | none => none
      | some inr =>
        if pledgeMode = "donation" then inr.donation_reward_tier
        else if pledgeMode = "loan" then inr.loan_reward_tier
        else none
    else none

/-- views.py lines 2171-2192: the second `class PledgeApprove` definition,
which shadows the earlier one (line 275) because Python binds the module
name to the later class. It checks only that the requester is the
fundraiser's owner, then sets the status to "approved" with no check of the
current status whatsoever. -/
def pledgeApproveShadow (p : PledgeRec) (fundraiserOwner requester : Nat) :
    Except String PledgeRec :=
  if fundraiserOwner ≠ requester then
    .error ("Only the organiser can approve pledges.")
  else .ok { p with status := "approved" }

/-- views.py lines 275-290: the first, shadowed `class PledgeApprove`, which
runs `ensure_allowed_transition(current=pledge.status, target="approved",
actor_role="owner")` before writing. -/
def pledgeApproveShadowed (p : PledgeRec) (fundraiserOwner requester : Nat) :
    Except String PledgeRec :=
  if fundraiserOwner ≠ requester then
    .error ("Only the organiser can approve pledges.")
  else
    match ensure_allowed_transition p.status "approved" "owner" with
    | .error e => .error e
    | .ok _ => .ok { p with status := "approved" }

/-- A row of the `Fundraiser` table (models.py, class Fundraiser, lines
9-43), omitting only the date columns. Note the model declares no
pledge-approval policy column of any kind. -/
structure Fundraiser where
  id : Nat
  title : String
  description : String
  goal : Rat
  image_url : String
  location : String
  status : String
  enable_rewards : Bool
  sort_order : Int
  owner : Nat
  deriving DecidableEq

/-- The column names the `Fundraiser` model declares (models.py lines 9-43),
against which Django resolves `refresh_from_db(fields=...)` lookups. -/
def fundraiserFieldNames : List String :=
  ["id", "title", "description", "goal", "image_url", "location",
   "start_date", "end_date", "status", "enable_rewards", "sort_order",
   "date_created", "date_updated", "owner"]

/-- Django `Fundraiser.refresh_from_db(fields=fs)`: reloads the row when
every requested name is a declared column, and raises `FieldError` /
`FieldDoesNotExist` otherwise — which is what happens for the
`require_pledge_approval` lookup in views.py line 184, since the model
declares no such column. -/
def fundraiserRefreshFromDb (f : Fundraiser) (fs : List String) :
    Except String Fundraiser :=
  if fs.all (fun n => fundraiserFieldNames.contains n) then .ok f
  else .error ("FieldError: unknown field in refresh_from_db")

/-- Python `getattr(fundraiser, "require_pledge_approval", True)` from
views.py line 187: the `Fundraiser` model (models.py lines 9-43) declares no
field or attribute named `require_pledge_approval`, so `getattr` returns the
supplied default for every instance. -/
def fundraiserGetattrRequirePledgeApproval (_f : Fundraiser)
    (default : Bool) : Bool :=
  default

/-- views.py lines 180-195, the initial-status decision of `PledgeList.post`
after the pledge row is saved: refresh the fundraiser's
`require_pledge_approval` column from the database (which raises — the model
has no such column), then map the `getattr` result to "pending" or
"approved". -/
def pledgeInitialStatus (f : Fundraiser) : Except String String := do
  let f2 ← fundraiserRefreshFromDb f ["require_pledge_approval"]
  pure (if fundraiserGetattrRequirePledgeApproval f2 true then "pending"
        else "approved")

/-- The status decision of views.py lines 187-190 taken alone, without the
crashing `refresh_from_db` step of line 184. -/
def pledgeInitialStatusNoRefresh (f : Fundraiser) : String :=
  if fundraiserGetattrRequirePledgeApproval f true then "pending"
  else "approved"

/-- models.py lines 306-319, `RewardTier.clean`: strip
`minimum_contribution_value` for non-money rewards, then reject a negative
minimum on a money reward with `ValidationError`. -/
def RewardTier.clean (t : RewardTier) : Except String RewardTier :=
  let t2 :=
    if t.reward_type ≠ "money" then { t with minimum_contribution_value := none }
    else t
  match t2.minimum_contribution_value with
  | some v =>
    if t2.reward_type = "money" ∧ v < 0 then
      .error ("Must be 0 or greater.")
    else .ok t2
  | none => .ok t2

/-- models.py lines 321-323, `RewardTier.save`: run `clean` and persist the
cleaned row (`super().save(...)`). Every create and update of a `RewardTier`
goes through this override, `objects.create` included. -/
def RewardTier.save (t : RewardTier) : Except String RewardTier :=
  RewardTier.clean t

/-- A row of the `TemplateRewardTier` table (models.py, class
TemplateRewardTier). -/
structure TemplateRewardTier where
  id : Nat
  reward_type : String
  name : String
  description : String
  minimum_contribution_value : Option Rat
  image_url : String
  sort_order : Int
  max_backers : Option Nat
  deriving DecidableEq

/-- A row of the `TemplateNeed` table (models.py, class TemplateNeed).
Datetimes are abstracted to integers; `null=True` columns are `Option`,
`blank=True` text columns are `String` with the empty string as the falsy
missing value, exactly as Python truthiness treats them. -/
structure TemplateNeed where
  id : Nat
  need_type : String
  title : String
  description : String
  priority : String
  sort_order : Int
  target_amount : Option Rat
  comment : String
  start_datetime : Option Int
  end_datetime : Option Int
  volunteers_needed : Option Int
  role_title : String
  location : String
  time_reward_template : Option Nat
  item_name : String
  quantity_needed : Option Int
  mode : String
  notes : String
  donation_reward_template : Option Nat
  loan_reward_template : Option Nat
  deriving DecidableEq

/-- A `FundraiserTemplate` row (models.py, class FundraiserTemplate) with its
child rows, each child list carried in the model Meta ordering Django hands
to `template.template_reward_tiers.all()` / `template.template_needs.all()`. -/
structure FundraiserTemplate where
  id : Nat
  name : String
  title : String
  description : String
  goal : Option Rat
  image_url : String
  location : String
  enable_rewards : Bool
  is_active : Bool
  template_reward_tiers : List TemplateRewardTier
  template_needs : List TemplateNeed
  deriving DecidableEq

/-- A row of the `Need` table (models.py, class Need). -/
structure NeedRow where
  id : Nat
  fundraiser : Nat
  need_type : String
  title : String
  description : String
  status : String
  priority : String
  sort_order : Int
  deriving DecidableEq

/-- A row of the `MoneyNeed` table (models.py, class MoneyNeed). -/
structure MoneyNeedRow where
  need : Nat
  target_amount : Rat
  comment : String
  deriving DecidableEq

/-- A row of the `TimeNeed` table (models.py, class TimeNeed). -/
structure TimeNeedRow where
  need : Nat
  start_datetime : Int
  end_datetime : Int
  volunteers_needed : Int
  role_title : String
  location : String
  reward_tier : Option Nat
  deriving DecidableEq

/-- A row of the `ItemNeed` table (models.py, class ItemNeed). -/
structure ItemNeedRow where
  need : Nat
  item_name : String
  quantity_needed : Int
  mode : String
  notes : String
  donation_reward_tier : Option Nat
  loan_reward_tier : Option Nat
  deriving DecidableEq

/-- The slice of the store `ApplyTemplateToFundraiser.post` reads and
writes: the target fundraiser's row and its related `Need`, need-detail and
`RewardTier` rows (the related managers `fundraiser.needs` /
`fundraiser.reward_tiers` are scoped to this fundraiser). `nextId` models the
database primary-key sequence for the rows the operation creates. -/
structure TStore where
  fundraiser : Fundraiser
  tiers : List RewardTier
  needs : List NeedRow
  moneyNeeds : List MoneyNeedRow
  timeNeeds : List TimeNeedRow
  itemNeeds : List ItemNeedRow
  nextId : Nat
  deriving DecidableEq

/-- views.py lines 1831-1843, step 4 of `ApplyTemplateToFundraiser.post`:
copy the template's top-level fields onto the fundraiser, overwriting only
where the template supplies a truthy (non-empty / non-null) value;
`enable_rewards` is copied unconditionally. -/
def copyTemplateFields (f : Fundraiser) (tpl : FundraiserTemplate) :
    Fundraiser :=
  let f1 := if tpl.title ≠ "" then { f with title := tpl.title } else f
  let f2 :=
    if tpl.description ≠ "" then { f1 with description := tpl.description }
    else f1
  let f3 := match tpl.goal with
    | some g => { f2 with goal := g }
    | none => f2
  let f4 :=
    if tpl.image_url ≠ "" then { f3 with image_url := tpl.image_url } else f3
  let f5 :=
    if tpl.location ≠ "" then { f4 with location := tpl.location } else f4
  { f5 with enable_rewards := tpl.enable_rewards }

/-- views.py lines 1845-1858, step 5: clone each `TemplateRewardTier` into a
real `RewardTier` of the fundraiser (`RewardTier.objects.create`, which runs
the overridden `save` and hence `clean`), accumulating the
template-tier-id → new-tier-id mapping. -/
def applyTiers (fid : Nat) :
    TStore → List (Nat × Nat) → List TemplateRewardTier →
      Except String (TStore × List (Nat × Nat))
  | st, mapping, [] => .ok (st, mapping)
  | st, mapping, trt :: rest =>
    match RewardTier.save
        { id := st.nextId, fundraiser := fid, reward_type := trt.reward_type,
          name := trt.name, description := trt.description,
          minimum_contribution_value := trt.minimum_contribution_value,
          image_url := trt.image_url, sort_order := trt.sort_order,
          max_backers := trt.max_backers } with
    | .error e => .error e
    | .ok rt =>
      applyTiers fid
        { st with tiers := st.tiers ++ [rt], nextId := st.nextId + 1 }
        (mapping ++ [(trt.id, rt.id)]) rest

/-- views.py lines 1861-1967, one iteration of step 6: clone a
`TemplateNeed` into a real `Need` (created before the per-type guards run,
exactly as in the source), then validate and create the type-matched detail
row, resolving reward-tier references through the mapping; a missing required
field raises `ValidationError` naming the offending need and fields. A
`need_type` outside money/time/item creates the bare `Need` and no detail
(the elif chain falls through). -/
def applyNeed (fid : Nat) (mapping : List (Nat × Nat)) (st : TStore)
    (tn : TemplateNeed) : Except String TStore :=
  let needId := st.nextId
  let st1 := { st with
    needs := st.needs ++
      [{ id := needId, fundraiser := fid, need_type := tn.need_type,
         title := tn.title, description := tn.description, status := "open",
         priority := tn.priority, sort_order := tn.sort_order }],
    nextId := st.nextId + 1 }
  if tn.need_type = "money" then
    match tn.target_amount with
    | none =>
      .error ("Template money need must have target_amount set before applying: "
        ++ tn.title)
    | some amt =>
      .ok { st1 with moneyNeeds := st1.moneyNeeds ++
        [{ need := needId, target_amount := amt, comment := tn.comment }] }
  else if tn.need_type = "time" then
    let missing :=
      (if tn.start_datetime = none then ["start_datetime"] else []) ++
      (if tn.end_datetime = none then ["end_datetime"] else []) ++
      (if tn.volunteers_needed = none then ["volunteers_needed"] else []) ++
      (if tn.role_title = "" then ["role_title"] else []) ++
      (if tn.location = "" then ["location"] else [])
    if missing ≠ [] then
      .error ("Template time need missing: " ++
        String.intercalate ", " missing ++ ". Set these before applying: " ++
        tn.title)
    else
      let time_reward := match tn.time_reward_template with
        | none => none
        | some tid => mapping.lookup tid
      .ok { st1 with timeNeeds := st1.timeNeeds ++
        [{ need := needId, start_datetime := tn.start_datetime.getD 0,
           end_datetime := tn.end_datetime.getD 0,
           volunteers_needed := tn.volunteers_needed.getD 0,
           role_title := tn.role_title, location := tn.location,
           reward_tier := time_reward }] }
  else if tn.need_type = "item" then
    let missing :=
      (if tn.item_name = "" then ["item_name"] else []) ++
      (if tn.quantity_needed = none then ["quantity_needed"] else []) ++
      (if tn.mode = "" then ["mode"] else [])
    if missing ≠ [] then
      .error ("Template item need missing: " ++
        String.intercalate ", " missing ++ ". Set these before applying: " ++
        tn.title)
    else
      let donation_reward := match tn.donation_reward_template with
        | none => none
        | some tid => mapping.lookup tid
      let loan_reward := match tn.loan_reward_template with
        | none => none
        | some tid => mapping.lookup tid
      .ok { st1 with itemNeeds := st1.itemNeeds ++
        [{ need := needId, item_name := tn.item_name,
           quantity_needed := tn.quantity_needed.getD 0, mode := tn.mode,
           notes := tn.notes, donation_reward_tier := donation_reward,
           loan_reward_tier := loan_reward }] }
  else .ok st1

/-- views.py lines 1861-1967, step 6 in full: process the template needs in
order, stopping at the first failure. -/
def applyNeeds (fid : Nat) (mapping : List (Nat × Nat)) :
    TStore → List TemplateNeed → Except String TStore
  | st, [] => .ok st
  | st, tn :: rest =>
    match applyNeed fid mapping st tn with
    | .error e => .error e
    | .ok st1 => applyNeeds fid mapping st1 rest

/-- views.py lines 1790-1974, `ApplyTemplateToFundraiser.post`: ownership
check (404), emptiness precondition, template fetch (active only), then the
`transaction.atomic` block of steps 4-6. An `.error` result is a raise; with
the atomic block (and the checks before it raising before any write) a raise
leaves the store untouched. -/
def applyTemplate (st : TStore) (tpl : FundraiserTemplate) (userId : Nat) :
    Except String TStore :=
  if st.fundraiser.owner ≠ userId then
    .error ("Fundraiser not found, or you do not own it.")
  else if st.needs ≠ [] ∨ st.tiers ≠ [] then
    .error ("This fundraiser already has needs or reward tiers. Templates can only be applied to an empty fundraiser.")
  else if ¬ tpl.is_active then
    .error ("Template not found or not active.")
  else
    let st1 := { st with fundraiser := copyTemplateFields st.fundraiser tpl }
    match applyTiers st.fundraiser.id st1 [] tpl.template_reward_tiers with
    | .error e => .error e
    | .ok (st2, mapping) =>
      applyNeeds st.fundraiser.id mapping st2 tpl.template_needs

/-- Persisted store after an apply-template request: the new store on
success, and — by the rollback semantics of the `transaction.atomic` block
wrapping every write — the untouched input store when the operation raised. -/
def applyTemplateState (st : TStore) (tpl : FundraiserTemplate)
    (userId : Nat) : TStore :=
  match applyTemplate st tpl userId with
  | .ok st2 => st2
  | .error _ => st

-- ==========================================================================
-- Concrete sample rows (used by examples, witnesses and counterexamples)
-- ==========================================================================

/-- A money reward tier of fundraiser 7 with threshold 10. -/
def exTier10 : RewardTier :=
  { id := 1, fundraiser := 7, reward_type := "money", name := "bronze",
    description := "", minimum_contribution_value := some 10, image_url := "",
    sort_order := 0, max_backers := none }

/-- A money reward tier of fundraiser 7 with threshold 50. -/
def exTier50 : RewardTier :=
  { exTier10 with
    id := 2, name := "silver", minimum_contribution_value := some 50 }

/-- A money reward tier of fundraiser 7 with threshold 100. -/
def exTier100 : RewardTier :=
  { exTier10 with
    id := 3, name := "gold", minimum_contribution_value := some 100 }

/-- A non-money reward tier submitted with a (to-be-stripped) minimum
contribution value. -/
def exTimeTier : RewardTier :=
  { exTier10 with
    id := 4, reward_type := "time", name := "helper",
    minimum_contribution_value := some 30 }

/-- The row `RewardTier.save` persists for `exTimeTier`. -/
def exTimeTierSaved : RewardTier :=
  { exTimeTier with minimum_contribution_value := none }

/-- A pledge of supporter 3 to fundraiser 7 in status "declined". -/
def exDeclinedPledge : PledgeRec :=
  { id := 9, fundraiser := 7, supporter := 3, status := "declined",
    need := none, reward_tier := none }

/-- A pledge of supporter 3 to fundraiser 7 in status "approved". -/
def exApprovedPledge : PledgeRec :=
  { exDeclinedPledge with id := 10, status := "approved" }

/-- A pledge that already carries reward tier 1. -/
def exTieredPledge : PledgeRec :=
  { id := 11, fundraiser := 7, supporter := 3, status := "pending",
    need := some 4, reward_tier := some 1 }

/-- A time need whose `TimeNeed` detail is configured with reward tier 2. -/
def exTimeNeedTier2 : NeedRec :=
  { id := 4, fundraiser := 7, need_type := "time",
    time_detail := some { reward_tier := some 2 }, item_detail := none }

/-- A time need whose `TimeNeed` detail has no configured reward tier. -/
def exTimeNeedBare : NeedRec :=
  { id := 5, fundraiser := 7, need_type := "time",
    time_detail := some { reward_tier := none }, item_detail := none }

/-- A money pledge detail row of 75 attached to pledge 11. -/
def exMoneyPledge75 : MoneyPledgeRec :=
  { id := 1, pledge := 11, amount := 75 }

/-- A pledge of another supporter that must not be touched by the
recalculation for supporter 3. -/
def exOtherPledge : PledgeRec :=
  { id := 12, fundraiser := 7, supporter := 8, status := "pending",
    need := none, reward_tier := some 3 }

/-- A small store: supporter 3 has a 75-money pledge on fundraiser 7 with
tiers 10/50/100 configured; supporter 8 has an unrelated pledge. -/
def exStore : Store :=
  { pledges := [exTieredPledge, exOtherPledge],
    moneyPledges := [exMoneyPledge75],
    tiers := [exTier10, exTier50, exTier100] }

/-- A fundraiser row owned by user 5. -/
def exFundraiser : Fundraiser :=
  { id := 7, title := "backyard festival", description := "", goal := 1000,
    image_url := "", location := "", status := "active",
    enable_rewards := true, sort_order := 0, owner := 5 }

/-- A template need of type money whose `target_amount` is unset. -/
def exBadMoneyTemplateNeed : TemplateNeed :=
  { id := 1, need_type := "money", title := "pa hire", description := "",
    priority := "medium", sort_order := 0, target_amount := none,
    comment := "", start_datetime := none, end_datetime := none,
    volunteers_needed := none, role_title := "", location := "",
    time_reward_template := none, item_name := "", quantity_needed := none,
    mode := "", notes := "", donation_reward_template := none,
    loan_reward_template := none }

/-- An active template carrying one money need with no target amount. -/
def exBadTemplate : FundraiserTemplate :=
  { id := 2, name := "bbq", title := "bbq banquet", description := "",
    goal := some 500, image_url := "", location := "",
    enable_rewards := true, is_active := true,
    template_reward_tiers := [], template_needs := [exBadMoneyTemplateNeed] }

/-- A need row already present on fundraiser 7. -/
def exNeedRow : NeedRow :=
  { id := 20, fundraiser := 7, need_type := "money", title := "existing",
    description := "", status := "open", priority := "medium",
    sort_order := 0 }

/-- A template-claim store whose fundraiser already has one need. -/
def exNonEmptyTStore : TStore :=
  { fundraiser := exFundraiser, tiers := [], needs := [exNeedRow],
    moneyNeeds := [], timeNeeds := [], itemNeeds := [], nextId := 21 }

/-- A template-claim store whose fundraiser is empty. -/
def exEmptyTStore : TStore :=
  { fundraiser := exFundraiser, tiers := [], needs := [], moneyNeeds := [],
    timeNeeds := [], itemNeeds := [], nextId := 21 }

-- ==========================================================================
-- Helper lemmas on the tier ordering and sort
-- ==========================================================================

lemma tierBefore_iff (a b : RewardTier) :
    tierBefore a b = true ↔
      (b.minimum_contribution_value.getD 0 <
          a.minimum_contribution_value.getD 0 ∨
        (a.minimum_contribution_value.getD 0 =
            b.minimum_contribution_value.getD 0 ∧ b.id ≤ a.id)) := by
  simp [tierBefore]

lemma tierBefore_refl (a : RewardTier) : tierBefore a a = true := by
  simp [tierBefore]

lemma tierBefore_total (a b : RewardTier) :
    tierBefore a b = true ∨ tierBefore b a = true := by
  rw [tierBefore_iff, tierBefore_iff]
  rcases lt_trichotomy (a.minimum_contribution_value.getD 0)
      (b.minimum_contribution_value.getD 0) with h | h | h
  · exact Or.inr (Or.inl h)
  · rcases le_total a.id b.id with hid | hid
    · exact Or.inr (Or.inr ⟨h.symm, hid⟩)
    · exact Or.inl (Or.inr ⟨h, hid⟩)
  · exact Or.inl (Or.inl h)

lemma tierBefore_trans {a b c : RewardTier} (h1 : tierBefore a b = true)
    (h2 : tierBefore b c = true) : tierBefore a c = true := by
  rw [tierBefore_iff] at h1 h2 ⊢
  rcases h1 with h1 | ⟨h1e, h1i⟩ <;> rcases h2 with h2 | ⟨h2e, h2i⟩
  · exact Or.inl (by linarith)
  · exact Or.inl (by linarith)
  · exact Or.inl (by linarith)
  · exact Or.inr ⟨by linarith, by omega⟩

lemma length_insertTier (t : RewardTier) (l : List RewardTier) :
    (insertTier t l).length = l.length + 1 := by
  induction l with
  | nil => rfl
  | cons u us ih =>
    rw [insertTier]
    split
    · rfl
    · simp [ih]

lemma length_sortTiers (l : List RewardTier) :
    (sortTiers l).length = l.length := by
  induction l with
  | nil => rfl
  | cons t ts ih => rw [sortTiers, length_insertTier, ih, List.length_cons]

lemma sortTiers_eq_nil {l : List RewardTier} :
    sortTiers l = [] ↔ l = [] := by
  constructor
  · intro h
    have hlen := length_sortTiers l
    rw [h] at hlen
    exact List.length_eq_zero.1 hlen.symm
  · intro h
    subst h
    rfl

lemma mem_insertTier {x t : RewardTier} {l : List RewardTier} :
    x ∈ insertTier t l ↔ x = t ∨ x ∈ l := by
  induction l with
  | nil => simp [insertTier]
  | cons u us ih =>
    rw [insertTier]
    split
    · simp
    · simp only [List.mem_cons, ih]
      tauto

lemma mem_sortTiers {x : RewardTier} {l : List RewardTier} :
    x ∈ sortTiers l ↔ x ∈ l := by
  induction l with
  | nil => simp [sortTiers]
  | cons t ts ih =>
    rw [sortTiers]
    simp only [mem_insertTier, ih, List.mem_cons]

lemma sortTiers_head {l : List RewardTier} {t : RewardTier}
    {rest : List RewardTier} (h : sortTiers l = t :: rest) :
    ∀ u ∈ l, tierBefore t u = true := by
  induction l generalizing t rest with
  | nil => simp [sortTiers] at h
  | cons a l ih =>
    rw [sortTiers] at h
    cases hl : sortTiers l with
    | nil =>
      rw [hl] at h
      have hln : l = [] := sortTiers_eq_nil.1 hl
      subst hln
      rw [insertTier] at h
      obtain ⟨rfl, -⟩ : a = t ∧ rest = [] := by
        constructor
        · exact (List.cons_eq_cons.1 h).1
        · exact (List.cons_eq_cons.1 h).2.symm
      intro u hu
      rcases List.mem_cons.1 hu with rfl | hu2
      · exact tierBefore_refl u
      · simp at hu2
    | cons b rest2 =>
      rw [hl] at h
      rw [insertTier] at h
      by_cases hab : tierBefore a b = true
      · rw [if_pos hab] at h
        obtain ⟨rfl, -⟩ := List.cons_eq_cons.1 h
        intro u hu
        rcases List.mem_cons.1 hu with rfl | hu2
        · exact tierBefore_refl u
        · exact tierBefore_trans hab (ih hl u hu2)
      · rw [if_neg hab] at h
        obtain ⟨rfl, -⟩ := List.cons_eq_cons.1 h
        intro u hu
        rcases List.mem_cons.1 hu with rfl | hu2
        · exact (tierBefore_total u b).resolve_left hab
        · exact ih hl u hu2

lemma qualifies_iff (f2 : Nat) (total : Rat) (t : RewardTier) :
    qualifies f2 total t = true ↔
      (t.fundraiser = f2 ∧ t.reward_type = "money" ∧
        ∃ v, t.minimum_contribution_value = some v ∧ v ≤ total) := by
  unfold qualifies
  cases hm : t.minimum_contribution_value with
  | none => simp [hm]
  | some v => simp [hm, and_assoc]

lemma applyTimeRewardTier_eq (p : PledgeRec) (need : Option NeedRec) :
    applyTimeRewardTier p need =
      (match resolvedTimeTier need with
        | some r => { p with reward_tier := some r }
        | none => p) := by
  cases need with
  | none => rfl
  | some n =>
    obtain ⟨nid, nf, nt, ntd, nit⟩ := n
    cases ntd with
    | none => rfl
    | some tn =>
      obtain ⟨rt⟩ := tn
      cases rt with
      | none => rfl
      | some r => rfl

lemma itemUpdateRewards_eq (p : PledgeRec) (need : Option NeedRec)
    (pledgeMode : String) :
    itemUpdateRewards p need pledgeMode =
      (match resolvedItemTierSer need pledgeMode with
        | some t => { p with reward_tier := some t }
        | none => p) := by
  cases need with
  | none => rfl
  | some n =>
    obtain ⟨nid, nf, nt, ntd, nit⟩ := n
    cases nit with
    | none => rfl
    | some inr =>
      obtain ⟨im, dt, lt2⟩ := inr
      simp only [itemUpdateRewards, resolvedItemTierSer]
      split_ifs <;>
        first
          | (cases dt <;> rfl)
          | (cases lt2 <;> rfl)

lemma itemPledgeListAssign_eq (p : PledgeRec) (need : Option NeedRec)
    (pledgeMode : String) :
    itemPledgeListAssign p need pledgeMode =
      (match resolvedItemTierView need pledgeMode with
        | some t => { p with reward_tier := some t }
        | none => p) := by
  cases need with
  | none => rfl
  | some n =>
    obtain ⟨nid, nf, nt, ntd, nit⟩ := n
    by_cases hnt : nt = "item"
    · subst hnt
      cases nit with
      | none => rfl
      | some inr =>
        obtain ⟨im, dt, lt2⟩ := inr
        simp only [itemPledgeListAssign, resolvedItemTierView,
          eq_self_iff_true, if_true]
        split_ifs <;>
          first
            | (cases dt <;> rfl)
            | (cases lt2 <;> rfl)
    · simp [itemPledgeListAssign, resolvedItemTierView, hnt]

lemma Store.ext2 (a b : Store) (h1 : a.pledges = b.pledges)
    (h2 : a.moneyPledges = b.moneyPledges) (h3 : a.tiers = b.tiers) :
    a = b := by
  cases a
  cases b
  simp_all

lemma recompute_moneyPledges (st : Store) (s f : Nat) :
    (update_reward_tiers_for_supporter_and_fundraiser st s f).moneyPledges =
      st.moneyPledges := rfl

lemma recompute_tiers (st : Store) (s f : Nat) :
    (update_reward_tiers_for_supporter_and_fundraiser st s f).tiers =
      st.tiers := rfl

lemma recompute_pledges (st : Store) (s f : Nat) :
    (update_reward_tiers_for_supporter_and_fundraiser st s f).pledges =
      st.pledges.map (fun p =>
        if pledgeMatchesMoney st s f p then
          { p with
            reward_tier := (selectedTier st s f).map (fun t => t.id) }
        else p) := rfl

lemma totalMoney_recompute (st : Store) (s f s2 f2 : Nat) :
    totalMoney (update_reward_tiers_for_supporter_and_fundraiser st s f)
        s2 f2 = totalMoney st s2 f2 := by
  rw [totalMoney, totalMoney, recompute_moneyPledges, recompute_pledges]
  congr 1
  apply List.filter_congr
  intro mp _
  rw [List.any_map]
  congr 1
  funext p
  simp only [Function.comp]
  by_cases h : pledgeMatchesMoney st s f p = true
  · simp [h]
  · simp [h]

lemma selectedTier_recompute (st : Store) (s f s2 f2 : Nat) :
    selectedTier (update_reward_tiers_for_supporter_and_fundraiser st s f)
        s2 f2 = selectedTier st s2 f2 := by
  rw [selectedTier, selectedTier, recompute_tiers, totalMoney_recompute]

lemma pledgeMatchesMoney_write (st st2 : Store) (s f s2 f2 : Nat)
    (rt : Option Nat) (p : PledgeRec)
    (hm : st2.moneyPledges = st.moneyPledges) :
    pledgeMatchesMoney st2 s2 f2
        (if pledgeMatchesMoney st s f p then { p with reward_tier := rt }
          else p) =
      pledgeMatchesMoney st s2 f2 p := by
  by_cases h : pledgeMatchesMoney st s f p = true
  · rw [if_pos h]
    simp [pledgeMatchesMoney, hasMoneyDetail, hm]
  · rw [if_neg h]
    simp [pledgeMatchesMoney, hasMoneyDetail, hm]

-- ==========================================================================
-- Claim theorems
-- ==========================================================================

/-- C1: for every supporter and fundraiser the money recalculation computes
the total as the sum of `amount` over all `MoneyPledge` rows whose parent
pledge has that supporter and fundraiser, with no filter on pledge status
(rewriting every pledge's status leaves the total unchanged), and selects as
the resulting tier a money-type tier of that fundraiser with a non-null
minimum contribution value ≤ total that is greatest by minimum value, ties
broken by greater tier id, or none when no tier qualifies; with thresholds
10, 50, 100 and total 75 the 50-tier is selected. -/
theorem recompute_total_and_selection :
    (∀ st s f2,
      totalMoney st s f2 =
        ((st.moneyPledges.filter (fun mp =>
            st.pledges.any (fun p =>
              p.id = mp.pledge && p.supporter = s &&
                p.fundraiser = f2))).map (fun mp => mp.amount)).sum)
    ∧ (∀ st (g : PledgeRec → String) s f2,
      totalMoney
        { st with
          pledges := st.pledges.map (fun p => { p with status := g p }) }
        s f2 = totalMoney st s f2)
    ∧ (∀ tiers f2 total,
      (selectMoneyTier tiers f2 total = none ↔
        ∀ t ∈ tiers, qualifies f2 total t = false)
      ∧ ∀ t, selectMoneyTier tiers f2 total = some t →
          t ∈ tiers ∧ t.fundraiser = f2 ∧ t.reward_type = "money" ∧
          (∃ v, t.minimum_contribution_value = some v ∧ v ≤ total) ∧
          ∀ u ∈ tiers, qualifies f2 total u = true →
            (u.minimum_contribution_value.getD 0 <
                t.minimum_contribution_value.getD 0 ∨
              (u.minimum_contribution_value.getD 0 =
                  t.minimum_contribution_value.getD 0 ∧ u.id ≤ t.id)))
    ∧ selectMoneyTier [exTier10, exTier50, exTier100] 7 75 = some exTier50 := by
  refine ⟨?_, ?_, ?_, ?_⟩
  · intro st s f2
    rw [totalMoney, List.sum_eq_foldl, List.foldl_map]
  · intro st g s f2
    rw [totalMoney, totalMoney]
    congr 1
    apply List.filter_congr
    intro mp _
    rw [List.any_map]
    rfl
  · intro tiers f2 total
    constructor
    · rw [selectMoneyTier, List.head?_eq_none_iff, sortTiers_eq_nil,
        List.filter_eq_nil_iff]
      simp
    · intro t ht
      rw [selectMoneyTier] at ht
      cases hs : sortTiers (tiers.filter (qualifies f2 total)) with
      | nil => rw [hs] at ht; simp at ht
      | cons b rest =>
        rw [hs] at ht
        obtain rfl : b = t := by simpa using ht
        have hmem : b ∈ tiers.filter (qualifies f2 total) := by
          rw [← mem_sortTiers, hs]
          exact List.mem_cons_self b rest
        have htl : b ∈ tiers := (List.mem_filter.1 hmem).1
        have hq := (qualifies_iff f2 total b).1 (List.mem_filter.1 hmem).2
        refine ⟨htl, hq.1, hq.2.1, hq.2.2, ?_⟩
        intro u hu hqu
        have humem : u ∈ tiers.filter (qualifies f2 total) :=
          List.mem_filter.2 ⟨hu, hqu⟩
        have hb := (tierBefore_iff b u).1 (sortTiers_head hs u humem)
        rcases hb with hb | ⟨hbe, hbi⟩
        · exact Or.inl hb
        · exact Or.inr ⟨hbe.symm, hbi⟩
  · decide

/-- Witness for C1: with thresholds 10, 50, 100 on fundraiser 7 and a total
of 75, the selected tier is a member of the tier list, belongs to
fundraiser 7 and is money-typed. -/
theorem recompute_total_and_selection_witness :
    exTier50 ∈ [exTier10, exTier50, exTier100] ∧ exTier50.fundraiser = 7 ∧
      exTier50.reward_type = "money" := by
  have h := (recompute_total_and_selection.2.2.1
      [exTier10, exTier50, exTier100] 7 75).2 exTier50 (by decide)
  exact ⟨h.1, h.2.1, h.2.2.1⟩

/-- C2: the pure transition check succeeds exactly for the table's triples
(supporter: pending→cancelled; owner: pending→approved, pending→declined,
pending→cancelled, approved→cancelled); every other combination of current
status, target and actor role fails, unknown targets and unknown actor roles
included, and a failed check leaves the pledge's stored status unchanged. -/
theorem transition_table_exact :
    (∀ current target actor_role : String,
      ensure_allowed_transition current target actor_role = .ok () ↔
        ((actor_role = "supporter" ∧ target = "cancelled" ∧
            current = "pending") ∨
          (actor_role = "owner" ∧ target = "approved" ∧
            current = "pending") ∨
          (actor_role = "owner" ∧ target = "declined" ∧
            current = "pending") ∨
          (actor_role = "owner" ∧ target = "cancelled" ∧
            (current = "pending" ∨ current = "approved"))))
    ∧ ∀ (p : PledgeRec) (target actor_role : String),
        ensure_allowed_transition p.status target actor_role ≠ .ok () →
          transitionPledgeState p target actor_role = p := by
  constructor
  · intro current target actor_role
    constructor
    · intro h
      unfold ensure_allowed_transition at h
      split_ifs at h with h1 h2 h3 h4 h5 h6 h7 h8 h9 h10 <;>
        first
          | exact Except.noConfusion h
          | (push_neg at *; tauto)
    · rintro (⟨hr, ht, hc⟩ | ⟨hr, ht, hc⟩ | ⟨hr, ht, hc⟩ | ⟨hr, ht, hc⟩) <;>
        subst hr <;> subst ht <;>
        first
          | (subst hc; rfl)
          | (rcases hc with hc | hc <;> subst hc <;> rfl)
  · intro p target actor_role h
    rw [transitionPledgeState, transitionPledge]
    cases he : ensure_allowed_transition p.status target actor_role with
    | error e => rfl
    | ok u => cases u; exact absurd he h

/-- Witness for C2: an owner's approve request on an already-approved pledge
fails the check and the stored pledge is unchanged. -/
theorem transition_table_exact_witness :
    transitionPledgeState exApprovedPledge "approved" "owner" =
      exApprovedPledge :=
  transition_table_exact.2 exApprovedPledge "approved" "owner" (by decide)

/-- C3 (code evaluated at the failing input): on a pledge in status
"declined", the exposed approve operation — the second, shadowing
`PledgeApprove` of views.py lines 2171-2192 — succeeds for the fundraiser
owner and sets the status to "approved", although the repository's own
transition rule (`ensure_allowed_transition`, also enforced by the shadowed
first `PledgeApprove`) rejects exactly this with "Only pending pledges can
be approved.". -/
theorem approve_shadow_skips_status_check :
    pledgeApproveShadow exDeclinedPledge 5 5 =
        .ok { exDeclinedPledge with status := "approved" }
      ∧ ensure_allowed_transition "declined" "approved" "owner" =
        .error ("Only pending pledges can be approved.")
      ∧ pledgeApproveShadowed exDeclinedPledge 5 5 =
        .error ("Only pending pledges can be approved.") := by
  refine ⟨rfl, rfl, rfl⟩

/-- Counterexample for C6: a pledge that already carries reward tier 1,
saved as a time pledge whose need is configured with time reward tier 2,
ends with reward tier 2 — the assignment overwrites the existing tier,
contrary to the claim that a pledge with a tier already assigned is left
unchanged. -/
theorem time_tier_overwrites_existing :
    exTieredPledge.reward_tier = some 1 ∧
      (applyTimeRewardTier exTieredPledge (some exTimeNeedTier2)).reward_tier
        = some 2 := by
  refine ⟨rfl, rfl⟩

/-- C6 (amended): on every TimePledge create/update the need's configured
time reward tier, when it resolves (need present, `time_detail` present,
`reward_tier` non-null), is written onto the pledge unconditionally —
overwriting any existing tier — and the pledge is left entirely unchanged
when no tier resolves. -/
theorem time_tier_assignment_behavior :
    ∀ (p : PledgeRec) (need : Option NeedRec),
      applyTimeRewardTier p need =
        (match resolvedTimeTier need with
          | some r => { p with reward_tier := some r }
          | none => p) := by
  intro p need
  exact applyTimeRewardTier_eq p need

/-- C7 (code evaluated): the `Fundraiser` model declares no
`require_pledge_approval` column, so for every fundraiser the status
decision of `PledgeList.post` raises in its `refresh_from_db` step, and
even taken without that step the `getattr` fallback `True` makes the
decision "pending" for every fundraiser — the "approved" branch is
unreachable, contrary to the claim that a fundraiser not requiring approval
yields an approved pledge. -/
theorem create_pledge_status_never_approved :
    (∀ f : Fundraiser,
        (pledgeInitialStatus f).isOk = false ∧
          pledgeInitialStatusNoRefresh f = "pending")
      ∧ pledgeInitialStatus exFundraiser =
        .error ("FieldError: unknown field in refresh_from_db") := by
  exact ⟨fun f => ⟨rfl, rfl⟩, rfl⟩

/-- C9: every save of a `RewardTier` whose reward type is not money persists
a null `minimum_contribution_value`, whatever value was supplied; the save
never changes the reward type, so the invariant holds of the row as read
back. -/
theorem nonmoney_tier_minimum_cleared :
    ∀ t t2 : RewardTier, RewardTier.save t = .ok t2 →
      t2.reward_type = t.reward_type ∧
        (t2.reward_type ≠ "money" → t2.minimum_contribution_value = none) := by
  intro t t2 h
  rw [RewardTier.save, RewardTier.clean] at h
  by_cases hm : t.reward_type = "money"
  · rw [if_neg (not_not.2 hm)] at h
    cases hv : t.minimum_contribution_value with
    | none =>
      rw [hv] at h
      obtain rfl : t = t2 := by
        cases h
        rfl
      exact ⟨rfl, fun hc => hv⟩
    | some v =>
      rw [hv] at h
      dsimp only at h
      split_ifs at h
      obtain rfl : t = t2 := by
        cases h
        rfl
      exact ⟨rfl, fun hc => absurd hm hc⟩
  · rw [if_pos hm] at h
    simp only [] at h
    obtain rfl :
        ({ t with minimum_contribution_value := none } : RewardTier) = t2 := by
      cases h
      rfl
    exact ⟨rfl, fun _ => rfl⟩

/-- Witness for C9: saving the time-type tier submitted with minimum 30
persists it with a null minimum. -/
theorem nonmoney_tier_minimum_cleared_witness :
    exTimeTierSaved.minimum_contribution_value = none :=
  (nonmoney_tier_minimum_cleared exTimeTier exTimeTierSaved (by decide)).2
    (by decide)

/-- C10: none of the three time/item tier-assignment paths ever writes null
into a pledge's `reward_tier`: whenever no tier resolves from the need, the
pledge is returned exactly as it was, and a null `reward_tier` after any of
these paths can only mean it was already null before. -/
theorem tier_paths_never_write_null :
    ∀ (p : PledgeRec) (need : Option NeedRec) (mode : String),
      (resolvedTimeTier need = none → applyTimeRewardTier p need = p)
      ∧ (resolvedItemTierSer need mode = none →
          itemUpdateRewards p need mode = p)
      ∧ (resolvedItemTierView need mode = none →
          itemPledgeListAssign p need mode = p)
      ∧ ((applyTimeRewardTier p need).reward_tier = none →
          p.reward_tier = none)
      ∧ ((itemUpdateRewards p need mode).reward_tier = none →
          p.reward_tier = none)
      ∧ ((itemPledgeListAssign p need mode).reward_tier = none →
          p.reward_tier = none) := by
  intro p need mode
  refine ⟨?_, ?_, ?_, ?_, ?_, ?_⟩
  · intro h
    rw [applyTimeRewardTier_eq, h]
  · intro h
    rw [itemUpdateRewards_eq, h]
  · intro h
    rw [itemPledgeListAssign_eq, h]
  · intro h
    rw [applyTimeRewardTier_eq] at h
    cases hr : resolvedTimeTier need with
    | none => rw [hr] at h; exact h
    | some r => rw [hr] at h; exact absurd h (by simp)
  · intro h
    rw [itemUpdateRewards_eq] at h
    cases hr : resolvedItemTierSer need mode with
    | none => rw [hr] at h; exact h
    | some r => rw [hr] at h; exact absurd h (by simp)
  · intro h
    rw [itemPledgeListAssign_eq] at h
    cases hr : resolvedItemTierView need mode with
    | none => rw [hr] at h; exact h
    | some r => rw [hr] at h; exact absurd h (by simp)

/-- Witness for C10: a time pledge on a need whose time detail has no
configured tier keeps its existing tier through all three paths. -/
theorem tier_paths_never_write_null_witness :
    applyTimeRewardTier exTieredPledge (some exTimeNeedBare) = exTieredPledge
      ∧ itemUpdateRewards exTieredPledge (some exTimeNeedBare) "donation" =
        exTieredPledge
      ∧ itemPledgeListAssign exTieredPledge (some exTimeNeedBare) "donation" =
        exTieredPledge := by
  refine
    ⟨(tier_paths_never_write_null exTieredPledge (some exTimeNeedBare)
        "donation").1 (by decide),
      (tier_paths_never_write_null exTieredPledge (some exTimeNeedBare)
        "donation").2.1 (by decide),
      (tier_paths_never_write_null exTieredPledge (some exTimeNeedBare)
        "donation").2.2.1 (by decide)⟩

/-- C4: the money recalculation is idempotent — running it twice in a row
for the same supporter and fundraiser with no intervening changes yields the
same selected tier and a persisted store identical to the one after the
first run. -/
theorem recompute_idempotent :
    ∀ st s f,
      update_reward_tiers_for_supporter_and_fundraiser
          (update_reward_tiers_for_supporter_and_fundraiser st s f) s f =
        update_reward_tiers_for_supporter_and_fundraiser st s f
      ∧ selectedTier
          (update_reward_tiers_for_supporter_and_fundraiser st s f) s f =
        selectedTier st s f := by
  intro st s f
  have hsel := selectedTier_recompute st s f s f
  refine ⟨?_, hsel⟩
  apply Store.ext2
  · rw [recompute_pledges
      (update_reward_tiers_for_supporter_and_fundraiser st s f) s f, hsel,
      recompute_pledges st s f, List.map_map]
    apply List.map_congr_left
    intro p hp
    simp only [Function.comp]
    rw [pledgeMatchesMoney_write st
      (update_reward_tiers_for_supporter_and_fundraiser st s f) s f s f
      ((selectedTier st s f).map (fun t => t.id)) p
      (recompute_moneyPledges st s f)]
    by_cases hc : pledgeMatchesMoney st s f p = true
    · rw [if_pos hc, if_pos hc]
    · rw [if_neg hc, if_neg hc]
  · rfl
  · rfl

/-- C5: the money recalculation writes the selected tier (or null) onto
exactly the pledges of that supporter and fundraiser that have a money
detail — record-for-record, a matched pledge changes only its `reward_tier`
and an unmatched pledge (another supporter or fundraiser, or a pledge with
no money detail) is returned unchanged — and the `MoneyPledge` and
`RewardTier` tables are untouched. -/
theorem recompute_frame :
    ∀ st s f,
      (update_reward_tiers_for_supporter_and_fundraiser st s f).moneyPledges
          = st.moneyPledges
      ∧ (update_reward_tiers_for_supporter_and_fundraiser st s f).tiers =
          st.tiers
      ∧ (update_reward_tiers_for_supporter_and_fundraiser
            st s f).pledges.length = st.pledges.length
      ∧ ∀ i (h1 : i < st.pledges.length)
          (h2 : i <
            (update_reward_tiers_for_supporter_and_fundraiser
              st s f).pledges.length),
          (pledgeMatchesMoney st s f st.pledges[i] = true →
            (update_reward_tiers_for_supporter_and_fundraiser
                st s f).pledges[i] =
              { st.pledges[i] with
                reward_tier := (selectedTier st s f).map (fun t => t.id) })
          ∧ (pledgeMatchesMoney st s f st.pledges[i] = false →
            (update_reward_tiers_for_supporter_and_fundraiser
                st s f).pledges[i] = st.pledges[i]) := by
  intro st s f
  refine ⟨rfl, rfl, ?_, ?_⟩
  · rw [recompute_pledges, List.length_map]
  · intro i h1 h2
    have hg :
        (update_reward_tiers_for_supporter_and_fundraiser
            st s f).pledges[i] =
          (if pledgeMatchesMoney st s f st.pledges[i] then
            { st.pledges[i] with
              reward_tier := (selectedTier st s f).map (fun t => t.id) }
          else st.pledges[i]) := by
      simp only [recompute_pledges, List.getElem_map]
    constructor
    · intro hc
      rw [hg, if_pos hc]
    · intro hc
      rw [hg, if_neg (by simp [hc])]

/-- In the sample store, supporter 3's money total on fundraiser 7 is 75,
so the 50-threshold tier is selected. -/
lemma selectedTier_exStore : selectedTier exStore 3 7 = some exTier50 := by
  have ht : totalMoney exStore 3 7 = 75 := by
    simp [totalMoney, exStore, exMoneyPledge75, exTieredPledge,
      exOtherPledge]
  rw [selectedTier, ht]
  decide

/-- Witness for C5: in the sample store, supporter 3's money pledge (the
first row) gets tier 2 (the 50-threshold tier for a total of 75) written,
and the unrelated pledge of supporter 8 (the second row) is unchanged. -/
theorem recompute_frame_witness :
    (update_reward_tiers_for_supporter_and_fundraiser
        exStore 3 7).pledges.get ⟨0, by decide⟩ =
      { exTieredPledge with reward_tier := some 2 }
    ∧ (update_reward_tiers_for_supporter_and_fundraiser
        exStore 3 7).pledges.get ⟨1, by decide⟩ = exOtherPledge := by
  constructor
  · have h :=
      ((recompute_frame exStore 3 7).2.2.2 0 (by decide) (by decide)).1
        (by decide)
    rw [selectedTier_exStore] at h
    exact h.trans (by decide)
  · have h :=
      ((recompute_frame exStore 3 7).2.2.2 1 (by decide) (by decide)).2
        (by decide)
    exact h.trans (by decide)

/-- A template money need with no `target_amount` makes its processing step
raise (views.py lines 1873-1881), whatever the store state. -/
lemma applyNeed_money_missing (fid : Nat) (m : List (Nat × Nat))
    (st : TStore) (tn : TemplateNeed) (h1 : tn.need_type = "money")
    (h2 : tn.target_amount = none) :
    (applyNeed fid m st tn).isOk = false := by
  rw [applyNeed, if_pos h1, h2]
  rfl

/-- If any template need in the list is a money need with no target amount,
the whole step-6 fold raises. -/
lemma applyNeeds_err (fid : Nat) (m : List (Nat × Nat)) :
    ∀ (l : List TemplateNeed) (st : TStore) (tn : TemplateNeed),
      tn ∈ l → tn.need_type = "money" → tn.target_amount = none →
        (applyNeeds fid m st l).isOk = false := by
  intro l
  induction l with
  | nil =>
    intro st tn hmem
    simp at hmem
  | cons a rest ih =>
    intro st tn hmem h1 h2
    rw [applyNeeds]
    cases ha : applyNeed fid m st a with
    | error e => rfl
    | ok st1 =>
      rcases List.mem_cons.1 hmem with rfl | hmem2
      · have hbad := applyNeed_money_missing fid m st tn h1 h2
        rw [ha] at hbad
        simp [Except.isOk, Except.toBool] at hbad
      · exact ih st1 tn hmem2 h1 h2

/-- C8: applying a template to a fundraiser that already has a need or a
reward tier fails; any failing apply leaves the persisted store exactly as
it was (zero rows created — full rollback); and a template containing a
money need with no target amount makes the operation fail, whatever else the
template holds. -/
theorem applyTemplate_atomic :
    ∀ (st : TStore) (tpl : FundraiserTemplate) (userId : Nat),
      ((st.needs ≠ [] ∨ st.tiers ≠ []) →
        (applyTemplate st tpl userId).isOk = false)
      ∧ ((applyTemplate st tpl userId).isOk = false →
          applyTemplateState st tpl userId = st)
      ∧ (∀ tn ∈ tpl.template_needs, tn.need_type = "money" →
          tn.target_amount = none →
            (applyTemplate st tpl userId).isOk = false) := by
  intro st tpl userId
  refine ⟨?_, ?_, ?_⟩
  · intro h
    rw [applyTemplate]
    split_ifs with h1 <;> rfl
  · intro h
    rw [applyTemplateState]
    cases he : applyTemplate st tpl userId with
    | error e => rfl
    | ok st2 =>
      rw [he] at h
      simp [Except.isOk, Except.toBool] at h
  · intro tn hmem h1 h2
    rw [applyTemplate]
    split_ifs with ha hb hc <;>
      first
        | rfl
        | (dsimp only
           split
           · rfl
           · exact applyNeeds_err st.fundraiser.id _ tpl.template_needs _ tn
               hmem h1 h2)

/-- Witness for C8: applying the sample template to the fundraiser that
already has one need fails and preserves the store; applying it to the empty
fundraiser also fails, because its money need lacks a target amount. -/
theorem applyTemplate_atomic_witness :
    (applyTemplate exNonEmptyTStore exBadTemplate 5).isOk = false
    ∧ applyTemplateState exNonEmptyTStore exBadTemplate 5 = exNonEmptyTStore
    ∧ (applyTemplate exEmptyTStore exBadTemplate 5).isOk = false := by
  have h1 :=
    (applyTemplate_atomic exNonEmptyTStore exBadTemplate 5).1
      (Or.inl (by decide))
  refine ⟨h1, (applyTemplate_atomic exNonEmptyTStore exBadTemplate 5).2.1 h1,
    (applyTemplate_atomic exEmptyTStore exBadTemplate 5).2.2
      exBadMoneyTemplateNeed (by decide) (by decide) (by decide)⟩

end Crowdfunding

